import Mathlib

set_option maxHeartbeats 1000000

/-!
Verification of the Patina DXE core image services subsystem
(src/patina_dxe_core/src/image.rs), as a shallow embedding.

Handles and pointers are modelled as natural numbers; external
collaborators (the page allocator, the protocol database handle
generator, the source-resolution protocols, the Security protocols and
image entry points) are modelled as oracles passed in as arguments.
The registry state (image records, current running image, start-context
stack, installed LoadedImage interfaces) is modelled explicitly and the
lifecycle operations are translated as state-transition functions that
additionally record the intermediate states visible at the points where
the registry lock is released.
-/

abbrev Handle := Nat
abbrev Ptr := Nat

/-- EFI status codes used by the image services (from r_efi / EfiError). -/
inductive Status where
  | success
  | invalidParameter
  | unsupported
  | loadError
  | outOfResources
  | notFound
  | deviceError
  | badBufferSize
  | accessDenied
  | securityViolation
  | unknown (n : Nat)
  deriving DecidableEq, Repr

/-- UEFI page size (patina::base::UEFI_PAGE_SIZE). -/
def UEFI_PAGE_SIZE : Nat := 4096

/-- PE section characteristic flag for code sections (pecoff::IMAGE_SCN_CNT_CODE). -/
def IMAGE_SCN_CNT_CODE : Nat := 0x00000020

/-- goblin::pe::section_table::IMAGE_SCN_MEM_WRITE. -/
def IMAGE_SCN_MEM_WRITE : Nat := 0x80000000

/-- goblin::pe::section_table::IMAGE_SCN_MEM_READ. -/
def IMAGE_SCN_MEM_READ : Nat := 0x40000000

/-- efi::MEMORY_XP (execute-protect). -/
def MEMORY_XP : Nat := 0x4000

/-- efi::MEMORY_RO (read-only). -/
def MEMORY_RO : Nat := 0x20000

def EFI_IMAGE_SUBSYSTEM_EFI_APPLICATION : Nat := 10
def EFI_IMAGE_SUBSYSTEM_EFI_BOOT_SERVICE_DRIVER : Nat := 11
def EFI_IMAGE_SUBSYSTEM_EFI_RUNTIME_DRIVER : Nat := 12

/--
Per-section access-attribute derivation performed at the top of
apply_image_memory_protections (image.rs lines 370-381): start from
MEMORY_XP, replace with MEMORY_RO for code sections, and OR in MEMORY_RO
for sections that are readable and not writable.
-/
def section_access_attributes (characteristics : Nat) : Nat :=
  let attributes : Nat :=
    if characteristics &&& IMAGE_SCN_CNT_CODE = IMAGE_SCN_CNT_CODE then MEMORY_RO
    else MEMORY_XP
  if characteristics &&& IMAGE_SCN_MEM_WRITE = 0 ∧
      characteristics &&& IMAGE_SCN_MEM_READ = IMAGE_SCN_MEM_READ then
    attributes ||| MEMORY_RO
  else
    attributes

/--
Modelled from the spec: the uefi_size_to_pages macro of the patina crate
(not under src/) computes the number of pages covering a byte size,
i.e. the ceiling of size / page-size.
-/
def uefi_size_to_pages (size : Nat) : Nat :=
  (size + UEFI_PAGE_SIZE - 1) / UEFI_PAGE_SIZE

/--
Modelled from the spec: align_up from patina::base (not under src/)
rounds its first argument up to the next multiple of the alignment.
-/
def align_up (x align : Nat) : Nat :=
  ((x + align - 1) / align) * align

def U64_MAX : Nat := 2 ^ 64 - 1

/--
The page count computed by PrivateImageData::new (image.rs lines
182-197): when the section alignment exceeds the page size the buffer is
over-allocated by one alignment unit (with a u64 overflow check mapped
to LoadError, modelled as none); otherwise just enough pages for the
image size.
-/
def image_alloc_num_pages (image_size section_alignment : Nat) : Option Nat :=
  if section_alignment > UEFI_PAGE_SIZE then
    if image_size + section_alignment ≤ U64_MAX then
      some (uefi_size_to_pages (image_size + section_alignment))
    else none
  else
    some (uefi_size_to_pages image_size)

/--
PrivateImageData::new (image.rs lines 177-236), projected onto its
allocation behaviour.  `alloc` is the external page allocator
(core_allocate_pages, not under src/), modelled from the spec as an
oracle from the requested page count to an optional base address, with
allocation failure surfacing as OutOfResources.  Returns the aligned
image buffer base and the number of pages of the underlying allocation.
-/
def private_image_data_new (image_size section_alignment : Nat)
    (alloc : Nat → Option Nat) : Except Status (Nat × Nat) :=
  match image_alloc_num_pages image_size section_alignment with
  | none => .error .loadError
  | some num_pages =>
    match alloc num_pages with
    | none => .error .outOfResources
    | some image_base_page =>
      if image_base_page = 0 then .error .outOfResources
      else .ok (align_up image_base_page section_alignment, num_pages)

theorem align_up_dvd (x align : Nat) : align ∣ align_up x align :=
  Dvd.intro_left _ rfl

theorem le_align_up (x align : Nat) (h : 0 < align) : x ≤ align_up x align := by
  unfold align_up
  have hmod := Nat.div_add_mod (x + align - 1) align
  have hlt : (x + align - 1) % align < align := Nat.mod_lt _ h
  have hc := Nat.mul_comm align ((x + align - 1) / align)
  set q := (x + align - 1) / align with hq
  set r := (x + align - 1) % align with hr
  omega

/-- C7: for every parsed PE section, the access attributes derived by the
section-protection engine have the XP bit (bit 14) set exactly when the
section characteristics do not contain IMAGE_SCN_CNT_CODE, and have the
RO bit (bit 17) set exactly when the characteristics contain
IMAGE_SCN_CNT_CODE or the section is readable and not writable. -/
theorem section_protection_attribute_derivation (c : Nat) :
    ((section_access_attributes c).testBit 14 ↔
      ¬ c &&& IMAGE_SCN_CNT_CODE = IMAGE_SCN_CNT_CODE) ∧
    ((section_access_attributes c).testBit 17 ↔
      (c &&& IMAGE_SCN_CNT_CODE = IMAGE_SCN_CNT_CODE ∨
        (c &&& IMAGE_SCN_MEM_WRITE = 0 ∧
          c &&& IMAGE_SCN_MEM_READ = IMAGE_SCN_MEM_READ))) ∧
    section_access_attributes c =
      (if c &&& IMAGE_SCN_CNT_CODE = IMAGE_SCN_CNT_CODE then MEMORY_RO
        else MEMORY_XP) |||
      (if c &&& IMAGE_SCN_MEM_WRITE = 0 ∧
          c &&& IMAGE_SCN_MEM_READ = IMAGE_SCN_MEM_READ then MEMORY_RO
        else 0) := by
  unfold section_access_attributes
  by_cases hcode : c &&& IMAGE_SCN_CNT_CODE = IMAGE_SCN_CNT_CODE <;>
    by_cases hro : c &&& IMAGE_SCN_MEM_WRITE = 0 ∧
        c &&& IMAGE_SCN_MEM_READ = IMAGE_SCN_MEM_READ <;>
    simp [hcode, hro, MEMORY_RO, MEMORY_XP] <;> decide

/-- C8: the image-buffer allocation requests
ceil((image_size + section_alignment) / page_size) pages when the
section alignment exceeds the page size and ceil(image_size / page_size)
pages otherwise; the returned base is the allocator's base aligned up to
the section alignment (a multiple of it, at or above the allocated
base); and an allocator failure or a zero base yields OutOfResources. -/
theorem image_buffer_allocation (image_size section_alignment : Nat)
    (alloc : Nat → Option Nat) (hal : 0 < section_alignment)
    (hov : image_size + section_alignment ≤ U64_MAX) :
    (UEFI_PAGE_SIZE < section_alignment →
      image_alloc_num_pages image_size section_alignment =
        some ((image_size + section_alignment + UEFI_PAGE_SIZE - 1) / UEFI_PAGE_SIZE)) ∧
    (¬ UEFI_PAGE_SIZE < section_alignment →
      image_alloc_num_pages image_size section_alignment =
        some ((image_size + UEFI_PAGE_SIZE - 1) / UEFI_PAGE_SIZE)) ∧
    (∀ np, image_alloc_num_pages image_size section_alignment = some np →
      (alloc np = none →
        private_image_data_new image_size section_alignment alloc =
          .error .outOfResources) ∧
      (alloc np = some 0 →
        private_image_data_new image_size section_alignment alloc =
          .error .outOfResources) ∧
      (∀ b, alloc np = some b → 0 < b →
        private_image_data_new image_size section_alignment alloc =
          .ok (align_up b section_alignment, np) ∧
        section_alignment ∣ align_up b section_alignment ∧
        b ≤ align_up b section_alignment)) := by
  refine ⟨fun hgt => ?_, fun hle => ?_, fun np hnp => ⟨fun hnone => ?_, fun hzero => ?_, fun b hb hpos => ?_⟩⟩
  · simp [image_alloc_num_pages, hgt, hov, uefi_size_to_pages]
  · simp [image_alloc_num_pages, hle, uefi_size_to_pages]
  · simp [private_image_data_new, hnp, hnone]
  · simp [private_image_data_new, hnp, hzero]
  · refine ⟨?_, align_up_dvd b section_alignment, le_align_up b section_alignment hal⟩
    simp [private_image_data_new, hnp, hb, Nat.pos_iff_ne_zero.mp hpos]

/-- Witness for the image-buffer allocation theorem at a concrete size,
alignment and allocator. -/
theorem image_buffer_allocation_witness :
    image_alloc_num_pages 0x3000 0x2000 = some 5 ∧
    private_image_data_new 0x3000 0x2000 (fun _ => some 0x1800) =
      .ok (0x2000, 5) := by
  have h := image_buffer_allocation 0x3000 0x2000 (fun _ => some 0x1800)
    (by decide) (by decide)
  refine ⟨?_, ?_⟩
  · have := h.1 (by decide)
    simpa [UEFI_PAGE_SIZE] using this
  · have hnp : image_alloc_num_pages 0x3000 0x2000 = some 5 := by decide
    have := ((h.2.2 5 hnp).2.2 0x1800 rfl (by decide)).1
    simpa [align_up] using this

/-! ## The image registry state (DxeCoreGlobalImageData) -/

/-- The per-handle private image state tracked by the registry
(struct PrivateImageData), projected onto the fields the lifecycle
operations branch on.  The unload callback is modelled as the status its
invocation would return (none when the image installed no callback). -/
structure PrivateImageDataM where
  started : Bool
  exit_data : Option (Nat × Ptr)
  image_type : Nat
  image_info_ptr : Ptr
  unload : Option Status
  deriving DecidableEq, Repr

/-- The registry singleton (struct DxeCoreGlobalImageData) together with
the slice of the protocol database the image core manipulates:
valid_handles is the protocol database's handle set, and
loaded_image_installs records the LoadedImage interfaces installed by
the image core, keyed by handle. -/
structure GlobalData where
  dxe_core_image_handle : Handle
  valid_handles : List Handle
  image_records : List (Handle × PrivateImageDataM)
  current_running_image : Option Handle
  image_start_contexts : List Handle
  loaded_image_installs : List (Handle × Ptr)
  deriving DecidableEq, Repr

/-- Association-list lookup (BTreeMap::get). -/
def lookup_rec {α : Type} (h : Handle) : List (Handle × α) → Option α
  | [] => none
  | (k, v) :: rest => if k = h then some v else lookup_rec h rest

/-- Association-list removal (BTreeMap::remove). -/
def erase_rec {α : Type} (h : Handle) : List (Handle × α) → List (Handle × α)
  | [] => []
  | (k, v) :: rest => if k = h then erase_rec h rest else (k, v) :: erase_rec h rest

/-- Association-list insertion (BTreeMap::insert replaces any previous binding). -/
def insert_rec {α : Type} (h : Handle) (v : α) (l : List (Handle × α)) :
    List (Handle × α) :=
  (h, v) :: erase_rec h l

/-- In-place modification of the binding for a key (BTreeMap::get_mut). -/
def update_rec {α : Type} (h : Handle) (f : α → α) : List (Handle × α) → List (Handle × α)
  | [] => []
  | (k, v) :: rest =>
    if k = h then (k, f v) :: update_rec h f rest
    else (k, v) :: update_rec h f rest

/-- PROTOCOL_DB.validate_handle, modelled as membership in the protocol
database's handle set. -/
def valid_handle (st : GlobalData) (h : Handle) : Bool :=
  st.valid_handles.contains h

theorem lookup_erase {α : Type} (h k : Handle) (l : List (Handle × α)) :
    lookup_rec h (erase_rec k l) = if k = h then none else lookup_rec h l := by
  induction l with
  | nil => simp [erase_rec, lookup_rec]
  | cons p rest ih =>
    obtain ⟨a, v⟩ := p
    by_cases hak : a = k
    · subst hak
      by_cases hah : a = h
      · subst hah
        simpa [erase_rec] using ih
      · simp [erase_rec, lookup_rec, hah, ih]
    · by_cases hah : a = h
      · subst hah
        have hkh : ¬ k = a := fun hh => hak hh.symm
        simp [erase_rec, lookup_rec, hak, hkh]
      · simp [erase_rec, lookup_rec, hak, hah, ih]

theorem lookup_insert {α : Type} (h k : Handle) (v : α) (l : List (Handle × α)) :
    lookup_rec h (insert_rec k v l) =
      if k = h then some v else lookup_rec h l := by
  by_cases hk : k = h <;> simp [insert_rec, lookup_rec, lookup_erase, hk]

theorem lookup_update {α : Type} (h k : Handle) (f : α → α) (l : List (Handle × α)) :
    lookup_rec h (update_rec k f l) =
      if k = h then (lookup_rec h l).map f else lookup_rec h l := by
  induction l with
  | nil => simp [update_rec, lookup_rec]
  | cons p rest ih =>
    obtain ⟨a, v⟩ := p
    by_cases hak : a = k
    · subst hak
      by_cases hah : a = h
      · subst hah
        simp [update_rec, lookup_rec, ih]
      · simp [update_rec, lookup_rec, hah, ih]
    · by_cases hah : a = h
      · subst hah
        have hkh : ¬ k = a := fun hh => hak hh.symm
        simp [update_rec, lookup_rec, hak, hkh]
      · simp [update_rec, lookup_rec, hak, hah, ih]

/-! ## Lifecycle operations -/

/--
core_unload_image (image.rs lines 1336-1424).  Validates the handle,
looks up the record, then (when started) consults the image's unload
callback: a missing callback is accepted only under force_unload, and a
callback result other than SUCCESS aborts the unload with that status.
Otherwise the record is removed from the registry and the LoadedImage
interface uninstalled from the handle.  Returns .success for Ok(()).
-/
def unload_gate (pid : PrivateImageDataM) (force_unload : Bool) : Status :=
  if pid.started then
    match pid.unload with
    | some s => s
    | none => if force_unload then .success else .unsupported
  else .success

def core_unload_image (st : GlobalData) (image_handle : Handle)
    (force_unload : Bool) : Status × GlobalData :=
  if ¬ valid_handle st image_handle then (.invalidParameter, st)
  else
    match lookup_rec image_handle st.image_records with
    | none => (.invalidParameter, st)
    | some pid =>
      if unload_gate pid force_unload ≠ .success then
        (unload_gate pid force_unload, st)
      else
        (.success,
          { st with
            image_records := erase_rec image_handle st.image_records,
            loaded_image_installs := erase_rec image_handle st.loaded_image_installs })

/-- The registry update performed by exit when non-empty exit data is
supplied (image.rs lines 1467-1472). -/
def store_exit_data (st : GlobalData) (image_handle : Handle)
    (exit_data_size : Nat) (exit_data : Option Ptr) : GlobalData :=
  if exit_data_size ≠ 0 ∧ exit_data.isSome then
    { st with
      image_records :=
        update_rec image_handle
          (fun p => { p with exit_data := some (exit_data_size, exit_data.getD 0) })
          st.image_records }
  else st

/-- Outcome of the boot-services exit entry point: either it returns a
status to its caller, or it suspends the popped yielder (identified by
the handle whose StartImage pushed it) with the exit status. -/
inductive ExitOutcome where
  | ret (s : Status) (st : GlobalData)
  | suspend (yielder : Handle) (s : Status) (st : GlobalData)
  deriving DecidableEq, Repr

/-- The state carried by an exit outcome. -/
def ExitOutcome.state : ExitOutcome → GlobalData
  | .ret _ st => st
  | .suspend _ _ st => st

/--
The boot-services exit entry point (image.rs lines 1440-1495).  A handle
with no record yields InvalidParameter; a record that was never started
is force-unloaded (SUCCESS on success, InvalidParameter on any unload
failure); otherwise the handle must be the currently running image, the
exit data is stored, and the top start context is popped and suspended
with the given status (ACCESS_DENIED is returned in the unreachable case
of an empty context stack).
-/
def exit_image (st : GlobalData) (image_handle : Handle) (status : Status)
    (exit_data_size : Nat) (exit_data : Option Ptr) : ExitOutcome :=
  match lookup_rec image_handle st.image_records with
  | none => .ret .invalidParameter st
  | some pid =>
    if pid.started = false then
      if (core_unload_image st image_handle true).1 = .success then
        .ret .success (core_unload_image st image_handle true).2
      else
        .ret .invalidParameter (core_unload_image st image_handle true).2
    else
      if st.current_running_image ≠ some image_handle then .ret .invalidParameter st
      else
        match (store_exit_data st image_handle exit_data_size exit_data).image_start_contexts with
        | [] => .ret .accessDenied (store_exit_data st image_handle exit_data_size exit_data)
        | y :: rest =>
          .suspend y status
            { store_exit_data st image_handle exit_data_size exit_data with
              image_start_contexts := rest }

/-- What the image's entry point does when invoked, as an oracle: the
coroutine body always funnels into a single exit call, either because
the entry point itself called Exit with these arguments, or because it
returned `status` naturally and the wrapper called
exit(handle, status, 0, null) (image.rs line 1292). -/
structure EntryBehavior where
  status : Status
  exit_data_size : Nat
  exit_data : Option Ptr
  deriving DecidableEq, Repr

/-- Result of core_start_image: the observed status (Ok(()) encoded as
success), the final state, whether the entry point ran, and the
intermediate states at each point where the registry lock was released
inside the call. -/
structure StartResult where
  status : Status
  final : GlobalData
  ran_entry : Bool
  snapshots : List GlobalData
  deriving DecidableEq, Repr

/--
core_start_image (image.rs lines 1247-1334).  Validates the handle,
rejects records already started with InvalidParameter, allocates the
entry-point stack, saves and replaces current_running_image, then
resumes a coroutine that marks the record started, pushes its yielder,
releases the lock and invokes the entry point, which funnels into exit;
after the resume returns, current_running_image is restored.  The
snapshots field lists the registry states at the lock-release points, in
order.
-/
def set_current (st : GlobalData) (c : Option Handle) : GlobalData :=
  { st with current_running_image := c }

/-- The state change performed at the top of the start_image coroutine
body (image.rs lines 1265-1280): mark the record started and push the
yielder onto the start-context stack. -/
def start_context_push (st : GlobalData) (image_handle : Handle) : GlobalData :=
  { st with
    image_records :=
      update_rec image_handle (fun p => { p with started := true })
        st.image_records,
    image_start_contexts := image_handle :: st.image_start_contexts }

def core_start_image (st : GlobalData) (entry : EntryBehavior)
    (image_handle : Handle) : StartResult :=
  if ¬ valid_handle st image_handle then ⟨.invalidParameter, st, false, []⟩
  else
    match lookup_rec image_handle st.image_records with
    | none => ⟨.invalidParameter, st, false, [st]⟩
    | some pid =>
      if pid.started then ⟨.invalidParameter, st, false, [st]⟩
      else
        match lookup_rec image_handle
            (set_current st (some image_handle)).image_records with
        | none =>
          ⟨.notFound,
            set_current (set_current st (some image_handle)) st.current_running_image,
            false,
            [set_current st (some image_handle),
              set_current (set_current st (some image_handle)) st.current_running_image]⟩
        | some _ =>
          match exit_image
              (start_context_push (set_current st (some image_handle)) image_handle)
              image_handle entry.status entry.exit_data_size entry.exit_data with
          | .suspend _y s st3 =>
            ⟨s, set_current st3 st.current_running_image, true,
              [set_current st (some image_handle),
                start_context_push (set_current st (some image_handle)) image_handle,
                st3, set_current st3 st.current_running_image]⟩
          | .ret _s st3 =>
            ⟨entry.status, set_current st3 st.current_running_image, true,
              [set_current st (some image_handle),
                start_context_push (set_current st (some image_handle)) image_handle,
                st3, set_current st3 st.current_running_image]⟩

/-- Events observable at the boot-services start_image surface, in
program order. -/
inductive StartImageEvent where
  | wrote_exit_data (size : Nat) (ptr : Ptr)
  | unload_invoked
  deriving DecidableEq, Repr

/-- Result of the boot-services start_image entry point. -/
structure StartImageResult where
  status : Status
  final : GlobalData
  events : List StartImageEvent
  deriving DecidableEq, Repr

/-- The exit-data write performed by start_image (image.rs lines
1220-1233): when both caller pointers are non-null and the record holds
exit data, that exit data is written through the caller's pointers. -/
def exit_data_events (final : GlobalData) (image_handle : Handle)
    (exit_data_size_ptr exit_data_ptr : Option Ptr) : List StartImageEvent :=
  if exit_data_size_ptr.isSome ∧ exit_data_ptr.isSome then
    match lookup_rec image_handle final.image_records with
    | some pid =>
      match pid.exit_data with
      | some (sz, p) => [.wrote_exit_data sz p]
      | none => []
    | none => []
  else []

/--
The boot-services start_image entry point (image.rs lines 1212-1245).
Runs core_start_image; if both caller pointers are non-null and the
record holds exit data, writes it to the caller's pointers; then, if the
status is an error or the image subsystem is Application, invokes
core_unload_image(handle, force=true).
-/
def start_image (st : GlobalData) (entry : EntryBehavior) (image_handle : Handle)
    (exit_data_size_ptr exit_data_ptr : Option Ptr) : StartImageResult :=
  if (core_start_image st entry image_handle).status ≠ .success ∨
      (lookup_rec image_handle
          (core_start_image st entry image_handle).final.image_records).map
          (fun p => p.image_type) =
        some EFI_IMAGE_SUBSYSTEM_EFI_APPLICATION then
    ⟨(core_start_image st entry image_handle).status,
      (core_unload_image (core_start_image st entry image_handle).final
          image_handle true).2,
      exit_data_events (core_start_image st entry image_handle).final image_handle
          exit_data_size_ptr exit_data_ptr ++ [.unload_invoked]⟩
  else
    ⟨(core_start_image st entry image_handle).status,
      (core_start_image st entry image_handle).final,
      exit_data_events (core_start_image st entry image_handle).final image_handle
        exit_data_size_ptr exit_data_ptr⟩

/-! ## Image loading -/

/-- Projection of the PrivateImageData produced by core_load_pe_image
onto the fields core_load_image branches on. -/
structure LoadedPe where
  image_type : Nat
  has_resource_section : Bool
  deriving DecidableEq, Repr

/-- External collaborators consulted by core_load_image, as oracles:
each field is the outcome of the corresponding fallible step of
image.rs lines 994-1155. -/
structure LoadOracles where
  source : Except Status Bool
  security : Status
  file_path_copy : Except Status Unit
  pe_load : Except Status LoadedPe
  new_handle : Handle
  device_path_copy : Except Status Unit
  runtime_add : Except Status Unit
  install_device_path : Except Status Unit
  install_hii : Except Status Unit
  image_info_ptr : Ptr
  deriving Repr

/--
core_load_image (image.rs lines 994-1155).  Parameter validation, source
resolution, authentication (whose status is captured but does not abort
the load), PE load, installation of the LoadedImage interface on a fresh
handle, the fallible post-install steps (device-path copy, runtime
registration, LoadedImageDevicePath and HII installs) and finally the
insertion of the record into the registry.  Returns the handle paired
with the security status, plus the final state; error paths return with
whatever installs had already happened.
-/
def core_load_image (st : GlobalData) (ora : LoadOracles)
    (parent_image_handle : Handle) (file_path_null image_supplied : Bool) :
    Except Status (Handle × Status) × GlobalData :=
  if ¬ image_supplied ∧ file_path_null then (.error .invalidParameter, st)
  else if ¬ valid_handle st parent_image_handle then (.error .invalidParameter, st)
  else if (lookup_rec parent_image_handle st.loaded_image_installs).isNone then
    (.error .invalidParameter, st)
  else
    match (if image_supplied then Except.ok false else ora.source) with
    | .error e => (.error e, st)
    | .ok _from_fv =>
      let security_status := ora.security
      match (if file_path_null then Except.ok () else ora.file_path_copy) with
      | .error e => (.error e, st)
      | .ok () =>
        match ora.pe_load with
        | .error e => (.error e, st)
        | .ok pe =>
          let handle := ora.new_handle
          let st1 :=
            { st with
              valid_handles := handle :: st.valid_handles,
              loaded_image_installs :=
                insert_rec handle ora.image_info_ptr st.loaded_image_installs }
          match (if file_path_null then Except.ok () else ora.device_path_copy) with
          | .error e => (.error e, st1)
          | .ok () =>
            match (if pe.image_type = EFI_IMAGE_SUBSYSTEM_EFI_RUNTIME_DRIVER then
                ora.runtime_add else Except.ok ()) with
            | .error e => (.error e, st1)
            | .ok () =>
              match ora.install_device_path with
              | .error e => (.error e, st1)
              | .ok () =>
                match (if pe.has_resource_section then ora.install_hii
                    else Except.ok ()) with
                | .error e => (.error e, st1)
                | .ok () =>
                  let pid : PrivateImageDataM :=
                    { started := false, exit_data := none,
                      image_type := pe.image_type,
                      image_info_ptr := ora.image_info_ptr, unload := none }
                  (.ok (handle, security_status),
                    { st1 with
                      image_records := insert_rec handle pid st1.image_records })

/--
The boot-services load_image entry point (image.rs lines 1171-1203).
Returns the status and the handle written through the caller's
image_handle pointer (none when nothing was written), plus the final
state.
-/
def load_image (st : GlobalData) (ora : LoadOracles) (parent_image_handle : Handle)
    (file_path_null source_buffer_null : Bool) (source_size : Nat)
    (image_handle_ptr_null : Bool) : Status × Option Handle × GlobalData :=
  if image_handle_ptr_null then (.invalidParameter, none, st)
  else if ¬ source_buffer_null ∧ source_size = 0 then (.loadError, none, st)
  else
    match core_load_image st ora parent_image_handle file_path_null
        (! source_buffer_null) with
    | (.error e, st1) => (e, none, st1)
    | (.ok (h, sec), st1) => (sec, some h, st1)

/-- PrivateImageData::new_with_existing_allocation (image.rs lines
238-262): a record constructed over an existing allocation, with
started already true. -/
def new_with_existing_allocation (image_type : Nat) (info_ptr : Ptr) :
    PrivateImageDataM :=
  { started := true, exit_data := none, image_type := image_type,
    image_info_ptr := info_ptr, unload := none }

/--
install_dxe_core_image (image.rs lines 493-575): installs the
LoadedImage interface for the (already loaded) DXE core on the core's
handle, records the handle as dxe_core_image_handle, and inserts the
record built by new_with_existing_allocation into the registry.
-/
def install_dxe_core_image (st : GlobalData) (dxe_handle : Handle)
    (image_type : Nat) (info_ptr : Ptr) : GlobalData :=
  { st with
    dxe_core_image_handle := dxe_handle,
    valid_handles := dxe_handle :: st.valid_handles,
    loaded_image_installs :=
      insert_rec dxe_handle info_ptr st.loaded_image_installs,
    image_records :=
      insert_rec dxe_handle (new_with_existing_allocation image_type info_ptr)
        st.image_records }

/-! ## Source resolution (get_buffer_by_file_path) -/

/-- The four image-byte sources, in the order the resolver consults
them. -/
inductive Source where
  | fw
  | sfs
  | load_file2
  | load_file
  deriving DecidableEq, Repr

/-- Outcomes of the individual source-resolution helpers
(get_file_buffer_from_fw / _sfs / _load_protocol), as oracles: a buffer
(abstracted to an identifier) and the resolved device handle, or a
failure. -/
structure SourceOracles where
  fw : Except Status (Nat × Handle)
  sfs : Except Status (Nat × Handle)
  lf2 : Except Status (Nat × Handle)
  lf : Except Status (Nat × Handle)
  deriving Repr

/--
get_buffer_by_file_path (image.rs lines 765-795).  Null path is
rejected; otherwise the sources are tried in the fixed order firmware
volume (from_fv = true), simple file system, LoadFile2 (skipped under
boot_policy), LoadFile; the first success is returned with
authentication status 0, and exhaustion yields NotFound.  The second
component lists the sources actually consulted, in order.
-/
def get_buffer_by_file_path (boot_policy file_path_null : Bool)
    (ora : SourceOracles) :
    Except Status (Nat × Bool × Handle × Nat) × List Source :=
  if file_path_null then (.error .invalidParameter, [])
  else
    match ora.fw with
    | .ok (buffer, device_handle) => (.ok (buffer, true, device_handle, 0), [.fw])
    | .error _ =>
      match ora.sfs with
      | .ok (buffer, device_handle) =>
        (.ok (buffer, false, device_handle, 0), [.fw, .sfs])
      | .error _ =>
        if boot_policy then
          match ora.lf with
          | .ok (buffer, device_handle) =>
            (.ok (buffer, false, device_handle, 0), [.fw, .sfs, .load_file])
          | .error _ => (.error .notFound, [.fw, .sfs, .load_file])
        else
          match ora.lf2 with
          | .ok (buffer, device_handle) =>
            (.ok (buffer, false, device_handle, 0), [.fw, .sfs, .load_file2])
          | .error _ =>
            match ora.lf with
            | .ok (buffer, device_handle) =>
              (.ok (buffer, false, device_handle, 0),
                [.fw, .sfs, .load_file2, .load_file])
            | .error _ =>
              (.error .notFound, [.fw, .sfs, .load_file2, .load_file])

/-! ## Claim theorems: source order, DXE core record, Exit -/

/-- C6: with no caller buffer, image bytes are resolved by trying
firmware volume (from_fv = true), then simple file system, then
LoadFile2 (only when boot_policy is false), then LoadFile, returning the
first success; exhausting all sources returns NotFound, and LoadFile2 is
never consulted under boot_policy. -/
theorem source_resolution_order (bp : Bool) (ora : SourceOracles) :
    (∀ b h, ora.fw = .ok (b, h) →
      (get_buffer_by_file_path bp false ora).1 = .ok (b, true, h, 0)) ∧
    (∀ e b h, ora.fw = .error e → ora.sfs = .ok (b, h) →
      (get_buffer_by_file_path bp false ora).1 = .ok (b, false, h, 0)) ∧
    (∀ e1 e2 b h, ora.fw = .error e1 → ora.sfs = .error e2 → bp = false →
      ora.lf2 = .ok (b, h) →
      (get_buffer_by_file_path bp false ora).1 = .ok (b, false, h, 0)) ∧
    (∀ e1 e2 b h, ora.fw = .error e1 → ora.sfs = .error e2 → bp = true →
      ora.lf = .ok (b, h) →
      (get_buffer_by_file_path bp false ora).1 = .ok (b, false, h, 0)) ∧
    (∀ e1 e2 e3 b h, ora.fw = .error e1 → ora.sfs = .error e2 → bp = false →
      ora.lf2 = .error e3 → ora.lf = .ok (b, h) →
      (get_buffer_by_file_path bp false ora).1 = .ok (b, false, h, 0)) ∧
    (∀ e1 e2 e4, ora.fw = .error e1 → ora.sfs = .error e2 →
      ora.lf = .error e4 →
      (bp = true → (get_buffer_by_file_path bp false ora).1 = .error .notFound) ∧
      (∀ e3, ora.lf2 = .error e3 →
        (get_buffer_by_file_path bp false ora).1 = .error .notFound)) ∧
    (Source.load_file2 ∈ (get_buffer_by_file_path bp false ora).2 → bp = false) := by
  refine ⟨?_, ?_, ?_, ?_, ?_, ?_, ?_⟩
  · intro b h hfw
    simp [get_buffer_by_file_path, hfw]
  · intro e b h hfw hsfs
    simp [get_buffer_by_file_path, hfw, hsfs]
  · intro e1 e2 b h hfw hsfs hbp hlf2
    simp [get_buffer_by_file_path, hfw, hsfs, hbp, hlf2]
  · intro e1 e2 b h hfw hsfs hbp hlf
    simp [get_buffer_by_file_path, hfw, hsfs, hbp, hlf]
  · intro e1 e2 e3 b h hfw hsfs hbp hlf2 hlf
    simp [get_buffer_by_file_path, hfw, hsfs, hbp, hlf2, hlf]
  · intro e1 e2 e4 hfw hsfs hlf
    refine ⟨fun hbp => ?_, fun e3 hlf2 => ?_⟩
    · simp [get_buffer_by_file_path, hfw, hsfs, hbp, hlf]
    · cases bp <;> simp [get_buffer_by_file_path, hfw, hsfs, hlf, hlf2]
  · intro hmem
    cases bp
    · rfl
    · exfalso
      revert hmem
      cases hfw : ora.fw with
      | ok v =>
        obtain ⟨b, h⟩ := v
        simp [get_buffer_by_file_path, hfw]
      | error e1 =>
        cases hsfs : ora.sfs with
        | ok v =>
          obtain ⟨b, h⟩ := v
          simp [get_buffer_by_file_path, hfw, hsfs]
        | error e2 =>
          cases hlf : ora.lf with
          | ok v =>
            obtain ⟨b, h⟩ := v
            simp [get_buffer_by_file_path, hfw, hsfs, hlf]
          | error e4 =>
            simp [get_buffer_by_file_path, hfw, hsfs, hlf]

/-- Witness for the source-resolution theorem: firmware volume and
simple file system fail, boot_policy is false, and LoadFile2 succeeds
with buffer 5 on handle 3. -/
theorem source_resolution_order_witness :
    (get_buffer_by_file_path false false
        { fw := .error .notFound, sfs := .error .notFound,
          lf2 := .ok (5, 3), lf := .error .notFound }).1 =
      .ok (5, false, 3, 0) :=
  (source_resolution_order false
      { fw := .error .notFound, sfs := .error .notFound,
        lf2 := .ok (5, 3), lf := .error .notFound }).2.2.1
    .notFound .notFound 5 3 rfl rfl rfl rfl

/-- C10: the DXE core's own record is created by
new_with_existing_allocation with started already true, so after
install_dxe_core_image any core_start_image on the core's handle
returns InvalidParameter without running the entry point or changing
the state. -/
theorem dxe_core_image_cannot_be_restarted (st : GlobalData)
    (entry : EntryBehavior) (dxe_handle : Handle) (image_type : Nat)
    (info_ptr : Ptr) :
    (new_with_existing_allocation image_type info_ptr).started = true ∧
    lookup_rec (install_dxe_core_image st dxe_handle image_type info_ptr).dxe_core_image_handle
        (install_dxe_core_image st dxe_handle image_type info_ptr).image_records =
      some (new_with_existing_allocation image_type info_ptr) ∧
    core_start_image (install_dxe_core_image st dxe_handle image_type info_ptr)
        entry
        (install_dxe_core_image st dxe_handle image_type info_ptr).dxe_core_image_handle =
      ⟨.invalidParameter, install_dxe_core_image st dxe_handle image_type info_ptr,
        false, [install_dxe_core_image st dxe_handle image_type info_ptr]⟩ := by
  refine ⟨rfl, ?_, ?_⟩
  · simp [install_dxe_core_image, lookup_insert]
  · simp [core_start_image, install_dxe_core_image, valid_handle, lookup_insert,
      new_with_existing_allocation]

theorem store_exit_data_contexts (st : GlobalData) (h : Handle) (sz : Nat)
    (d : Option Ptr) :
    (store_exit_data st h sz d).image_start_contexts = st.image_start_contexts := by
  unfold store_exit_data
  split <;> rfl

theorem store_exit_data_current (st : GlobalData) (h : Handle) (sz : Nat)
    (d : Option Ptr) :
    (store_exit_data st h sz d).current_running_image = st.current_running_image := by
  unfold store_exit_data
  split <;> rfl

/-- Evaluation of exit on a started, currently running image whose
start context is on top of the stack: the context is popped and
suspended with the given status. -/
theorem exit_image_suspend_eval (st : GlobalData) (h : Handle) (s : Status)
    (sz : Nat) (d : Option Ptr) (pid : PrivateImageDataM) (rest : List Handle)
    (hrec : lookup_rec h st.image_records = some pid)
    (hst : pid.started = true)
    (hcur : st.current_running_image = some h)
    (hctx : st.image_start_contexts = h :: rest) :
    exit_image st h s sz d =
      .suspend h s
        { store_exit_data st h sz d with image_start_contexts := rest } := by
  unfold exit_image
  rw [hrec]
  simp [hst, hcur, store_exit_data_contexts, hctx]

/-- C2: for a handle whose record is not started, exit force-unloads the
image and returns SUCCESS, or InvalidParameter if the unload fails; for
a started record, exit returns InvalidParameter unless the handle is the
currently running image, in which case it pops the top start context
(which belongs to the handle) and suspends it with the given status
rather than returning. -/
theorem exit_semantics (st : GlobalData) (h : Handle) (s : Status) (sz : Nat)
    (d : Option Ptr) (pid : PrivateImageDataM)
    (hrec : lookup_rec h st.image_records = some pid) :
    (pid.started = false →
      ((core_unload_image st h true).1 = .success →
        exit_image st h s sz d = .ret .success (core_unload_image st h true).2) ∧
      ((core_unload_image st h true).1 ≠ .success →
        exit_image st h s sz d =
          .ret .invalidParameter (core_unload_image st h true).2)) ∧
    (pid.started = true →
      (st.current_running_image ≠ some h →
        exit_image st h s sz d = .ret .invalidParameter st) ∧
      (∀ rest, st.current_running_image = some h →
        st.image_start_contexts = h :: rest →
        exit_image st h s sz d =
          .suspend h s
            { store_exit_data st h sz d with image_start_contexts := rest })) := by
  refine ⟨fun hns => ?_, fun hst => ?_⟩
  · rcases hu : core_unload_image st h true with ⟨s1, st1⟩
    refine ⟨fun hok => ?_, fun hng => ?_⟩
    · simp only at hok
      subst hok
      simp [exit_image, hrec, hns, hu]
    · simp only at hng
      unfold exit_image
      rw [hrec]
      cases s1 <;> simp_all [exit_image, hrec, hns, hu]
  · refine ⟨fun hne => ?_, fun rest hcur hctx => ?_⟩
    · simp [exit_image, hrec, hst, hne]
    · exact exit_image_suspend_eval st h s sz d pid rest hrec hst hcur hctx

/-- A record for an image whose entry point is currently running. -/
def rec_started : PrivateImageDataM :=
  { started := true, exit_data := none, image_type := 10, image_info_ptr := 9,
    unload := none }

/-- A record for a freshly loaded, not yet started image. -/
def rec_fresh : PrivateImageDataM :=
  { started := false, exit_data := none, image_type := 10, image_info_ptr := 9,
    unload := none }

/-- A registry state in which image 1 is started and currently running. -/
def st_running : GlobalData :=
  { dxe_core_image_handle := 0, valid_handles := [1],
    image_records := [(1, rec_started)], current_running_image := some 1,
    image_start_contexts := [1], loaded_image_installs := [(1, 9)] }

/-- A registry state in which image 1 is loaded but not started. -/
def st_fresh : GlobalData :=
  { dxe_core_image_handle := 0, valid_handles := [1],
    image_records := [(1, rec_fresh)], current_running_image := none,
    image_start_contexts := [], loaded_image_installs := [(1, 9)] }

/-- An entry point that exits with UNSUPPORTED and exit data (4, 42). -/
def entry_err : EntryBehavior :=
  { status := .unsupported, exit_data_size := 4, exit_data := some 42 }

/-- Witness for the exit theorem: while image 1 is running, its own exit
suspends the popped start context with the given status. -/
theorem exit_semantics_witness :
    exit_image st_running 1 .success 4 (some 42) =
      .suspend 1 .success
        { store_exit_data st_running 1 4 (some 42) with
          image_start_contexts := [] } :=
  ((exit_semantics st_running 1 .success 4 (some 42) rec_started rfl).2
    rfl).2 [] rfl rfl

/-- C1: after core_start_image completes, if its status is an error or
the image's subsystem is Application then start_image invokes the force
unload (and its final state is that of core_unload_image with
force=true); and when both caller pointers are non-null and the record
holds exit data, the exit data write is the first event, preceding the
unload. -/
theorem start_image_exit_data_and_auto_unload (st : GlobalData)
    (entry : EntryBehavior) (h : Handle) (p1 p2 : Option Ptr) :
    ((core_start_image st entry h).status ≠ .success ∨
        (lookup_rec h (core_start_image st entry h).final.image_records).map
            (fun p => p.image_type) =
          some EFI_IMAGE_SUBSYSTEM_EFI_APPLICATION →
      StartImageEvent.unload_invoked ∈ (start_image st entry h p1 p2).events ∧
      (start_image st entry h p1 p2).final =
        (core_unload_image (core_start_image st entry h).final h true).2) ∧
    (∀ pid sz p, p1.isSome = true → p2.isSome = true →
      lookup_rec h (core_start_image st entry h).final.image_records = some pid →
      pid.exit_data = some (sz, p) →
      (start_image st entry h p1 p2).events.head? =
        some (.wrote_exit_data sz p) ∧
      (((core_start_image st entry h).status ≠ .success ∨
          pid.image_type = EFI_IMAGE_SUBSYSTEM_EFI_APPLICATION) →
        (start_image st entry h p1 p2).events =
          [.wrote_exit_data sz p, .unload_invoked])) := by
  constructor
  · intro hcond
    unfold start_image
    rw [if_pos hcond]
    simp
  · intro pid sz p hp1 hp2 hlook hex
    have hev : exit_data_events (core_start_image st entry h).final h p1 p2 =
        [.wrote_exit_data sz p] := by
      unfold exit_data_events
      rw [if_pos ⟨hp1, hp2⟩, hlook]
      simp [hex]
    constructor
    · unfold start_image
      split <;> simp [hev]
    · intro hcond2
      have hcond : (core_start_image st entry h).status ≠ .success ∨
          (lookup_rec h (core_start_image st entry h).final.image_records).map
              (fun q => q.image_type) =
            some EFI_IMAGE_SUBSYSTEM_EFI_APPLICATION := by
        rcases hcond2 with he | ht
        · exact Or.inl he
        · right
          rw [hlook]
          simp [ht]
      unfold start_image
      rw [if_pos hcond]
      simp [hev]

/-- Witness for the start_image exit-data/auto-unload theorem: image 1
exits with UNSUPPORTED and exit data (4, 42), and the caller passed both
pointers. -/
theorem start_image_exit_data_and_auto_unload_witness :
    (start_image st_fresh entry_err 1 (some 7) (some 8)).events =
      [.wrote_exit_data 4 42, .unload_invoked] :=
  ((start_image_exit_data_and_auto_unload st_fresh entry_err 1 (some 7)
        (some 8)).2
      { started := true, exit_data := some (4, 42), image_type := 10,
        image_info_ptr := 9, unload := none }
      4 42 rfl rfl (by decide) rfl).2 (Or.inr rfl)

/-! ## Shape lemmas for the registry map across the lifecycle operations -/

theorem core_unload_records_cases (st : GlobalData) (h : Handle) (f : Bool) :
    (core_unload_image st h f).2.image_records = st.image_records ∨
    (core_unload_image st h f).2.image_records = erase_rec h st.image_records := by
  unfold core_unload_image
  split
  · left; rfl
  · split
    · left; rfl
    · split
      · left; rfl
      · right; rfl

theorem store_exit_data_records_cases (st : GlobalData) (h : Handle) (sz : Nat)
    (d : Option Ptr) :
    (store_exit_data st h sz d).image_records = st.image_records ∨
    (store_exit_data st h sz d).image_records =
      update_rec h (fun p => { p with exit_data := some (sz, d.getD 0) })
        st.image_records := by
  unfold store_exit_data
  split
  · right; rfl
  · left; rfl

theorem exit_records_cases (st : GlobalData) (h : Handle) (s : Status) (sz : Nat)
    (d : Option Ptr) :
    (exit_image st h s sz d).state.image_records = st.image_records ∨
    (exit_image st h s sz d).state.image_records = erase_rec h st.image_records ∨
    (exit_image st h s sz d).state.image_records =
      update_rec h (fun p => { p with exit_data := some (sz, d.getD 0) })
        st.image_records := by
  have hun := core_unload_records_cases st h true
  have hstore := store_exit_data_records_cases st h sz d
  unfold exit_image
  split
  · left; rfl
  · split
    · split
      · rcases hun with hc | hc
        · left; simpa [ExitOutcome.state] using hc
        · right; left; simpa [ExitOutcome.state] using hc
      · rcases hun with hc | hc
        · left; simpa [ExitOutcome.state] using hc
        · right; left; simpa [ExitOutcome.state] using hc
    · split
      · left; rfl
      · split
        · rcases hstore with hc | hc
          · left; simpa [ExitOutcome.state] using hc
          · right; right; simpa [ExitOutcome.state] using hc
        · rcases hstore with hc | hc
          · left; simpa [ExitOutcome.state] using hc
          · right; right; simpa [ExitOutcome.state] using hc

theorem core_start_records_cases (st : GlobalData) (entry : EntryBehavior)
    (h : Handle) :
    (core_start_image st entry h).final.image_records = st.image_records ∨
    (core_start_image st entry h).final.image_records =
      update_rec h (fun p => { p with started := true }) st.image_records ∨
    (core_start_image st entry h).final.image_records =
      erase_rec h (update_rec h (fun p => { p with started := true })
        st.image_records) ∨
    (core_start_image st entry h).final.image_records =
      update_rec h
        (fun p => { p with exit_data := some (entry.exit_data_size, entry.exit_data.getD 0) })
        (update_rec h (fun p => { p with started := true }) st.image_records) := by
  have hex := exit_records_cases
    (start_context_push (set_current st (some h)) h) h entry.status
    entry.exit_data_size entry.exit_data
  unfold core_start_image
  split
  · left; rfl
  · split
    · left; rfl
    · split
      · left; rfl
      · split
        · left; rfl
        · split
          · rename_i y s3 st3 he
            rw [he] at hex
            rcases hex with hc | hc | hc
            · right; left
              simpa [ExitOutcome.state, start_context_push, set_current] using hc
            · right; right; left
              simpa [ExitOutcome.state, start_context_push, set_current] using hc
            · right; right; right
              simpa [ExitOutcome.state, start_context_push, set_current] using hc
          · rename_i s3 st3 he
            rw [he] at hex
            rcases hex with hc | hc | hc
            · right; left
              simpa [ExitOutcome.state, start_context_push, set_current] using hc
            · right; right; left
              simpa [ExitOutcome.state, start_context_push, set_current] using hc
            · right; right; right
              simpa [ExitOutcome.state, start_context_push, set_current] using hc

/-! ## Monotonicity of the started flag -/

/-- The started flag never reverts: any record surviving a transition
keeps started = true once it was true. -/
def started_monotone (l l' : List (Handle × PrivateImageDataM)) : Prop :=
  ∀ h pid pid', lookup_rec h l = some pid → pid.started = true →
    lookup_rec h l' = some pid' → pid'.started = true

theorem started_monotone_refl (l : List (Handle × PrivateImageDataM)) :
    started_monotone l l := by
  intro h pid pid' hl hs hl'
  rw [hl] at hl'
  cases hl'
  exact hs

theorem started_monotone_erase (l : List (Handle × PrivateImageDataM))
    (k : Handle) : started_monotone l (erase_rec k l) := by
  intro h pid pid' hl hs hl'
  rw [lookup_erase] at hl'
  by_cases hk : k = h
  · simp [hk] at hl'
  · rw [if_neg hk, hl] at hl'
    cases hl'
    exact hs

theorem started_monotone_update (l : List (Handle × PrivateImageDataM))
    (k : Handle) (g : PrivateImageDataM → PrivateImageDataM)
    (hg : ∀ p, p.started = true → (g p).started = true) :
    started_monotone l (update_rec k g l) := by
  intro h pid pid' hl hs hl'
  rw [lookup_update] at hl'
  by_cases hk : k = h
  · rw [if_pos hk, hl] at hl'
    exact (Option.some.inj hl') ▸ hg pid hs
  · rw [if_neg hk, hl] at hl'
    cases hl'
    exact hs

theorem started_monotone_update_update (l : List (Handle × PrivateImageDataM))
    (k k2 : Handle) (g g2 : PrivateImageDataM → PrivateImageDataM)
    (hg : ∀ p, p.started = true → (g p).started = true)
    (hg2 : ∀ p, p.started = true → (g2 p).started = true) :
    started_monotone l (update_rec k2 g2 (update_rec k g l)) := by
  intro h pid pid' hl hs hl'
  rw [lookup_update] at hl'
  by_cases hk2 : k2 = h
  · rw [if_pos hk2, lookup_update] at hl'
    by_cases hk : k = h
    · rw [if_pos hk, hl] at hl'
      exact (Option.some.inj hl') ▸ hg2 _ (hg pid hs)
    · rw [if_neg hk, hl] at hl'
      exact (Option.some.inj hl') ▸ hg2 pid hs
  · rw [if_neg hk2, lookup_update] at hl'
    by_cases hk : k = h
    · rw [if_pos hk, hl] at hl'
      exact (Option.some.inj hl') ▸ hg pid hs
    · rw [if_neg hk, hl] at hl'
      cases hl'
      exact hs

theorem started_monotone_erase_update (l : List (Handle × PrivateImageDataM))
    (k k2 : Handle) (g : PrivateImageDataM → PrivateImageDataM)
    (hg : ∀ p, p.started = true → (g p).started = true) :
    started_monotone l (erase_rec k2 (update_rec k g l)) := by
  intro h pid pid' hl hs hl'
  rw [lookup_erase] at hl'
  by_cases hk2 : k2 = h
  · simp [hk2] at hl'
  · rw [if_neg hk2] at hl'
    exact started_monotone_update l k g hg h pid pid' hl hs hl'

theorem started_monotone_insert_fresh (l : List (Handle × PrivateImageDataM))
    (k : Handle) (v : PrivateImageDataM)
    (hfresh : lookup_rec k l = none) :
    started_monotone l (insert_rec k v l) := by
  intro h pid pid' hl hs hl'
  rw [lookup_insert] at hl'
  by_cases hk : k = h
  · rw [hk] at hfresh
    rw [hfresh] at hl
    cases hl
  · rw [if_neg hk, hl] at hl'
    cases hl'
    exact hs

theorem core_unload_started_monotone (st : GlobalData) (h : Handle) (f : Bool) :
    started_monotone st.image_records (core_unload_image st h f).2.image_records := by
  rcases core_unload_records_cases st h f with hc | hc <;> rw [hc]
  · exact started_monotone_refl _
  · exact started_monotone_erase _ _

theorem exit_started_monotone (st : GlobalData) (h : Handle) (s : Status)
    (sz : Nat) (d : Option Ptr) :
    started_monotone st.image_records (exit_image st h s sz d).state.image_records := by
  rcases exit_records_cases st h s sz d with hc | hc | hc <;> rw [hc]
  · exact started_monotone_refl _
  · exact started_monotone_erase _ _
  · exact started_monotone_update _ _ _ (fun p hp => hp)

theorem core_start_started_monotone (st : GlobalData) (entry : EntryBehavior)
    (h : Handle) :
    started_monotone st.image_records
      (core_start_image st entry h).final.image_records := by
  rcases core_start_records_cases st entry h with hc | hc | hc | hc <;> rw [hc]
  · exact started_monotone_refl _
  · exact started_monotone_update _ _ _ (fun p _ => rfl)
  · exact started_monotone_erase_update _ _ _ _ (fun p _ => rfl)
  · exact started_monotone_update_update _ _ _ _ _ (fun p _ => rfl) (fun p hp => hp)

theorem start_image_records_cases (st : GlobalData) (entry : EntryBehavior)
    (h : Handle) (p1 p2 : Option Ptr) :
    (start_image st entry h p1 p2).final.image_records =
      (core_start_image st entry h).final.image_records ∨
    (start_image st entry h p1 p2).final.image_records =
      erase_rec h (core_start_image st entry h).final.image_records := by
  unfold start_image
  split
  · rcases core_unload_records_cases (core_start_image st entry h).final h true with
      hc | hc <;> rw [hc]
    · left; rfl
    · right; rfl
  · left; rfl

theorem start_image_started_monotone (st : GlobalData) (entry : EntryBehavior)
    (h : Handle) (p1 p2 : Option Ptr) :
    started_monotone st.image_records
      (start_image st entry h p1 p2).final.image_records := by
  rcases start_image_records_cases st entry h p1 p2 with hc | hc <;> rw [hc]
  · exact core_start_started_monotone st entry h
  · intro h' pid pid' hl hs hl'
    rw [lookup_erase] at hl'
    by_cases hk : h = h'
    · simp [hk] at hl'
    · rw [if_neg hk] at hl'
      exact core_start_started_monotone st entry h h' pid pid' hl hs hl'

theorem core_load_records_cases (st : GlobalData) (ora : LoadOracles)
    (parent : Handle) (fp img : Bool) :
    (core_load_image st ora parent fp img).2.image_records = st.image_records ∨
    ∃ pid, pid.started = false ∧
      (core_load_image st ora parent fp img).2.image_records =
        insert_rec ora.new_handle pid st.image_records := by
  unfold core_load_image
  split
  · left; rfl
  · split
    · left; rfl
    · split
      · left; rfl
      · split
        · left; rfl
        · split
          · left; rfl
          · split
            · left; rfl
            · rename_i pe hpe
              split
              · left; rfl
              · split
                · left; rfl
                · split
                  · left; rfl
                  · split
                    · left; rfl
                    · right
                      exact ⟨_, rfl, rfl⟩

theorem core_load_started_monotone (st : GlobalData) (ora : LoadOracles)
    (parent : Handle) (fp img : Bool)
    (hfresh : lookup_rec ora.new_handle st.image_records = none) :
    started_monotone st.image_records
      (core_load_image st ora parent fp img).2.image_records := by
  rcases core_load_records_cases st ora parent fp img with hc | ⟨pid, hpid, hc⟩ <;>
    rw [hc]
  · exact started_monotone_refl _
  · exact started_monotone_insert_fresh _ _ _ hfresh

theorem started_after_push_cases (l : List (Handle × PrivateImageDataM))
    (h : Handle) (l3 : List (Handle × PrivateImageDataM)) (sz : Nat)
    (d : Option Ptr)
    (hcase : l3 = update_rec h (fun p => { p with started := true }) l ∨
      l3 = erase_rec h (update_rec h (fun p => { p with started := true }) l) ∨
      l3 = update_rec h (fun p => { p with exit_data := some (sz, d.getD 0) })
        (update_rec h (fun p => { p with started := true }) l))
    (pid' : PrivateImageDataM) (hl' : lookup_rec h l3 = some pid') :
    pid'.started = true := by
  rcases hcase with hc | hc | hc <;> subst hc
  · rw [lookup_update, if_pos rfl] at hl'
    cases hlk : lookup_rec h l with
    | none => rw [hlk] at hl'; cases hl'
    | some q => rw [hlk] at hl'; exact (Option.some.inj hl') ▸ rfl
  · rw [lookup_erase, if_pos rfl] at hl'
    cases hl'
  · rw [lookup_update, if_pos rfl, lookup_update, if_pos rfl] at hl'
    cases hlk : lookup_rec h l with
    | none => rw [hlk] at hl'; cases hl'
    | some q => rw [hlk] at hl'; exact (Option.some.inj hl') ▸ rfl

theorem core_start_ran_entry_started (st : GlobalData) (entry : EntryBehavior)
    (h : Handle) :
    (core_start_image st entry h).ran_entry = true →
    ∀ pid', lookup_rec h (core_start_image st entry h).final.image_records =
      some pid' → pid'.started = true := by
  unfold core_start_image
  split
  · intro hran; simp at hran
  · split
    · intro hran; simp at hran
    · split
      · intro hran; simp at hran
      · split
        · intro hran; simp at hran
        · split
          · rename_i y s3 st3 he
            intro _ pid' hl'
            have hcase := exit_records_cases
              (start_context_push (set_current st (some h)) h) h entry.status
              entry.exit_data_size entry.exit_data
            rw [he] at hcase
            simp only [ExitOutcome.state, start_context_push, set_current] at hcase
            simp only [set_current] at hl'
            exact started_after_push_cases st.image_records h st3.image_records
              entry.exit_data_size entry.exit_data hcase pid' hl'
          · rename_i s3 st3 he
            intro _ pid' hl'
            have hcase := exit_records_cases
              (start_context_push (set_current st (some h)) h) h entry.status
              entry.exit_data_size entry.exit_data
            rw [he] at hcase
            simp only [ExitOutcome.state, start_context_push, set_current] at hcase
            simp only [set_current] at hl'
            exact started_after_push_cases st.image_records h st3.image_records
              entry.exit_data_size entry.exit_data hcase pid' hl'

/-- C3: once a record's started flag is true it stays true across every
lifecycle operation (start, the start_image surface, unload, exit, and
load with a fresh handle); a StartImage on an already-started record
fails with InvalidParameter, leaving the state untouched and never
running the entry point; and whenever the entry point did run, the
record's started flag is true afterwards. -/
theorem started_transitions_once (st : GlobalData) (entry : EntryBehavior)
    (ora : LoadOracles) (h h2 h3 h4 : Handle) (f fp_null img : Bool)
    (s : Status) (sz : Nat) (d p1 p2 : Option Ptr) (pid : PrivateImageDataM) :
    (lookup_rec h st.image_records = some pid → pid.started = true →
      (core_start_image st entry h).status = .invalidParameter ∧
      (core_start_image st entry h).ran_entry = false ∧
      (core_start_image st entry h).final = st) ∧
    ((core_start_image st entry h).ran_entry = true →
      ∀ pid', lookup_rec h (core_start_image st entry h).final.image_records =
        some pid' → pid'.started = true) ∧
    started_monotone st.image_records
      (core_start_image st entry h).final.image_records ∧
    started_monotone st.image_records
      (start_image st entry h p1 p2).final.image_records ∧
    started_monotone st.image_records
      (core_unload_image st h2 f).2.image_records ∧
    started_monotone st.image_records
      (exit_image st h3 s sz d).state.image_records ∧
    (lookup_rec ora.new_handle st.image_records = none →
      started_monotone st.image_records
        (core_load_image st ora h4 fp_null img).2.image_records) := by
  refine ⟨fun hlook hstart => ?_, core_start_ran_entry_started st entry h,
    core_start_started_monotone st entry h,
    start_image_started_monotone st entry h p1 p2,
    core_unload_started_monotone st h2 f,
    exit_started_monotone st h3 s sz d,
    fun hfresh => core_load_started_monotone st ora h4 fp_null img hfresh⟩
  by_cases hv : valid_handle st h
  · unfold core_start_image
    simp [hv, hlook, hstart]
  · unfold core_start_image
    simp [hv]

/-- A load-oracle assignment in which every external step succeeds. -/
def ora_ok : LoadOracles :=
  { source := .ok false, security := .success, file_path_copy := .ok (),
    pe_load := .ok { image_type := 11, has_resource_section := false },
    new_handle := 7, device_path_copy := .ok (), runtime_add := .ok (),
    install_device_path := .ok (), install_hii := .ok (), image_info_ptr := 99 }

/-- Witness for the started-flag theorem: a second StartImage on the
already-started image 1 fails with InvalidParameter without running the
entry point. -/
theorem started_transitions_once_witness :
    (core_start_image st_running entry_err 1).status = .invalidParameter ∧
    (core_start_image st_running entry_err 1).ran_entry = false ∧
    (core_start_image st_running entry_err 1).final = st_running :=
  (started_transitions_once st_running entry_err ora_ok 1 1 1 1 true true true
    Status.success 0 none none none rec_started).1 rfl rfl

/-! ## The current-running-image / start-context invariant -/

/-- The I3 relation between the current running image and the
start-context stack: none with an empty stack, or some h with a
non-empty stack whose top yielder belongs to h. -/
def running_matches (c : Option Handle) (ctxs : List Handle) : Bool :=
  match c, ctxs with
  | none, [] => true
  | some h, y :: _ => y == h
  | _, _ => false

/-- The I3 invariant evaluated on a registry state. -/
def inv_check (st : GlobalData) : Bool :=
  running_matches st.current_running_image st.image_start_contexts

/-- The registry state at the point where exit has popped the start
context and released the lock, just before suspending. -/
def start_exit_state (st : GlobalData) (entry : EntryBehavior) (h : Handle) :
    GlobalData :=
  { store_exit_data (start_context_push (set_current st (some h)) h) h
      entry.exit_data_size entry.exit_data with
    image_start_contexts := st.image_start_contexts }

/-- Evaluation of core_start_image on a valid, not-yet-started record:
the coroutine runs, exit suspends, and the call returns the entry's
status with the four lock-release snapshots. -/
theorem core_start_image_run (st : GlobalData) (entry : EntryBehavior)
    (h : Handle) (pid : PrivateImageDataM) (hv : valid_handle st h = true)
    (hlook : lookup_rec h st.image_records = some pid)
    (hns : pid.started = false) :
    core_start_image st entry h =
      ⟨entry.status,
        set_current (start_exit_state st entry h) st.current_running_image, true,
        [set_current st (some h),
          start_context_push (set_current st (some h)) h,
          start_exit_state st entry h,
          set_current (start_exit_state st entry h) st.current_running_image]⟩ := by
  have hlook2 : lookup_rec h (set_current st (some h)).image_records = some pid :=
    hlook
  have hX : lookup_rec h
      (start_context_push (set_current st (some h)) h).image_records =
      some { pid with started := true } := by
    simp [start_context_push, set_current, lookup_update, hlook]
  have hexit := exit_image_suspend_eval
    (start_context_push (set_current st (some h)) h) h entry.status
    entry.exit_data_size entry.exit_data { pid with started := true }
    st.image_start_contexts hX rfl rfl rfl
  unfold core_start_image
  rw [if_neg (by simp [hv])]
  rw [hlook]
  simp only [hns]
  rw [hlook2]
  simp only [hexit, start_exit_state]
  rfl

/-- C5 counterexample: starting a fresh image from a quiescent state,
the lock-release snapshots of core_start_image evaluate the I3 check to
[false, true, false, true] — the invariant is violated at the point
after current_running_image is set but before the coroutine pushes its
yielder, and again between exit's pop of the context and the restore,
so it does not hold at every point where the registry lock is free. -/
theorem running_image_invariant_counterexample :
    ((core_start_image st_fresh entry_err 1).snapshots.map inv_check) =
      [false, true, false, true] := by decide

/-- C5 (amended): after a completed StartImage both
current_running_image and the start-context stack have reverted to
their pre-call values, and the I3 iff (current running image matches a
non-empty context stack whose top belongs to it) holds at the snapshot
where the entry point is running and again at completion — but
transiently, between the update of current_running_image and the
coroutine's push (and between exit's pop and the restore), it is
violated. -/
theorem running_image_invariant_amended (st : GlobalData)
    (entry : EntryBehavior) (h : Handle) (pid : PrivateImageDataM)
    (hv : valid_handle st h = true)
    (hlook : lookup_rec h st.image_records = some pid)
    (hns : pid.started = false) :
    (core_start_image st entry h).final.current_running_image =
      st.current_running_image ∧
    (core_start_image st entry h).final.image_start_contexts =
      st.image_start_contexts ∧
    (core_start_image st entry h).snapshots.length = 4 ∧
    ((core_start_image st entry h).snapshots[1]?).map inv_check = some true ∧
    (inv_check st = true → inv_check (core_start_image st entry h).final = true) := by
  rw [core_start_image_run st entry h pid hv hlook hns]
  refine ⟨rfl, rfl, rfl, ?_, fun hinv => ?_⟩
  · simp [start_context_push, set_current, inv_check, running_matches]
  · have hc : inv_check
        (set_current (start_exit_state st entry h) st.current_running_image) =
        inv_check st := by
      simp [inv_check, set_current, start_exit_state, store_exit_data_contexts]
    simpa [hc] using hinv

/-- Witness for the amended I3 theorem at the concrete fresh state. -/
theorem running_image_invariant_amended_witness :
    (core_start_image st_fresh entry_err 1).final.current_running_image =
      st_fresh.current_running_image ∧
    (core_start_image st_fresh entry_err 1).final.image_start_contexts =
      st_fresh.image_start_contexts ∧
    (core_start_image st_fresh entry_err 1).snapshots.length = 4 ∧
    ((core_start_image st_fresh entry_err 1).snapshots[1]?).map inv_check =
      some true ∧
    (inv_check st_fresh = true →
      inv_check (core_start_image st_fresh entry_err 1).final = true) :=
  running_image_invariant_amended st_fresh entry_err 1 rec_fresh rfl rfl rfl

/-! ## The LoadedImage-interface / registry invariant -/

/-- I1: a handle has a record in the registry exactly when it carries a
LoadedImage interface installed by the image core, and the interface
pointer is the record's image_info_ptr. -/
def loaded_image_invariant (st : GlobalData) : Prop :=
  ∀ h : Handle,
    (lookup_rec h st.image_records).map (fun p => p.image_info_ptr) =
      lookup_rec h st.loaded_image_installs

/-- Evaluation of core_load_image when every fallible step succeeds: the
LoadedImage interface is installed on the fresh handle and the record is
inserted, with the security status returned alongside the handle. -/
theorem core_load_image_run (st : GlobalData) (ora : LoadOracles)
    (parent : Handle) (fp img fv : Bool) (pe : LoadedPe) (ptr0 : Ptr)
    (hc1 : img = true ∨ fp = false)
    (hv : valid_handle st parent = true)
    (hpar : lookup_rec parent st.loaded_image_installs = some ptr0)
    (hsrc : (if img then Except.ok false else ora.source) = Except.ok fv)
    (hfpc : (if fp then Except.ok () else ora.file_path_copy) = Except.ok ())
    (hpe : ora.pe_load = .ok pe)
    (hdpc : (if fp then Except.ok () else ora.device_path_copy) = Except.ok ())
    (hrt : (if pe.image_type = EFI_IMAGE_SUBSYSTEM_EFI_RUNTIME_DRIVER then
      ora.runtime_add else Except.ok ()) = Except.ok ())
    (hidp : ora.install_device_path = Except.ok ())
    (hhii : (if pe.has_resource_section then ora.install_hii
      else Except.ok ()) = Except.ok ()) :
    core_load_image st ora parent fp img =
      (.ok (ora.new_handle, ora.security),
        { st with
          valid_handles := ora.new_handle :: st.valid_handles,
          loaded_image_installs :=
            insert_rec ora.new_handle ora.image_info_ptr
              st.loaded_image_installs,
          image_records :=
            insert_rec ora.new_handle
              { started := false, exit_data := none, image_type := pe.image_type,
                image_info_ptr := ora.image_info_ptr, unload := none }
              st.image_records }) := by
  unfold core_load_image
  rw [if_neg (by rcases hc1 with hh | hh <;> simp [hh])]
  rw [if_neg (by simp [hv])]
  rw [if_neg (by simp [hpar])]
  simp only [hsrc, hfpc, hpe, hdpc, hrt, hidp, hhii]

/-- core_unload_image preserves the LoadedImage/registry invariant in
every outcome: the record and the interface are removed together, or
nothing changes. -/
theorem core_unload_preserves_invariant (st : GlobalData) (h2 : Handle)
    (f : Bool) (hinv : loaded_image_invariant st) :
    loaded_image_invariant (core_unload_image st h2 f).2 := by
  unfold core_unload_image
  split
  · exact hinv
  · split
    · exact hinv
    · split
      · exact hinv
      · intro hh
        simp only [lookup_erase]
        by_cases hk : h2 = hh
        · simp [hk]
        · simp [hk, hinv hh]

/-- C4 (amended): the LoadedImage/registry invariant is preserved by a
fully successful core_load_image and by core_unload_image on every path
— but not across the error paths of core_load_image that fail after the
LoadedImage install (see the counterexample). -/
theorem loaded_image_invariant_amended (st : GlobalData) (ora : LoadOracles)
    (parent h2 : Handle) (fp img f fv : Bool) (pe : LoadedPe) (ptr0 : Ptr)
    (hc1 : img = true ∨ fp = false)
    (hv : valid_handle st parent = true)
    (hpar : lookup_rec parent st.loaded_image_installs = some ptr0)
    (hsrc : (if img then Except.ok false else ora.source) = Except.ok fv)
    (hfpc : (if fp then Except.ok () else ora.file_path_copy) = Except.ok ())
    (hpe : ora.pe_load = .ok pe)
    (hdpc : (if fp then Except.ok () else ora.device_path_copy) = Except.ok ())
    (hrt : (if pe.image_type = EFI_IMAGE_SUBSYSTEM_EFI_RUNTIME_DRIVER then
      ora.runtime_add else Except.ok ()) = Except.ok ())
    (hidp : ora.install_device_path = Except.ok ())
    (hhii : (if pe.has_resource_section then ora.install_hii
      else Except.ok ()) = Except.ok ())
    (hinv : loaded_image_invariant st) :
    loaded_image_invariant (core_load_image st ora parent fp img).2 ∧
    loaded_image_invariant (core_unload_image st h2 f).2 := by
  refine ⟨?_, core_unload_preserves_invariant st h2 f hinv⟩
  rw [core_load_image_run st ora parent fp img fv pe ptr0 hc1 hv hpar hsrc hfpc
    hpe hdpc hrt hidp hhii]
  intro hh
  simp only [lookup_insert]
  by_cases hk : ora.new_handle = hh
  · simp [hk]
  · simp [hk, hinv hh]

/-- The invariant holds in the concrete one-image state. -/
theorem st_fresh_invariant : loaded_image_invariant st_fresh := by
  intro hh
  by_cases h1 : (1 : Nat) = hh <;> simp [st_fresh, rec_fresh, lookup_rec, h1]

/-- Witness for the amended LoadedImage/registry invariant theorem at
the concrete one-image state with all-succeeding oracles. -/
theorem loaded_image_invariant_amended_witness :
    loaded_image_invariant (core_load_image st_fresh ora_ok 1 true true).2 ∧
    loaded_image_invariant (core_unload_image st_fresh 1 true).2 :=
  loaded_image_invariant_amended st_fresh ora_ok 1 1 true true true false
    { image_type := 11, has_resource_section := false } 9 (Or.inl rfl) rfl rfl
    rfl rfl rfl rfl rfl rfl rfl st_fresh_invariant

/-- A load-oracle assignment in which installing the
LoadedImageDevicePath interface fails after the LoadedImage interface
was already installed. -/
def ora_fail_dp : LoadOracles :=
  { source := .ok false, security := .success, file_path_copy := .ok (),
    pe_load := .ok { image_type := 11, has_resource_section := false },
    new_handle := 7, device_path_copy := .ok (), runtime_add := .ok (),
    install_device_path := .error .outOfResources, install_hii := .ok (),
    image_info_ptr := 99 }

/-- C4 counterexample: when LoadImage fails after installing the
LoadedImage interface (here: installing LoadedImageDevicePath fails),
the call returns with handle 7 still carrying a LoadedImage interface
while no record for 7 is in image_records, violating the claimed
invariant at a point where the registry lock is not held. -/
theorem loaded_image_invariant_counterexample :
    ¬ loaded_image_invariant (core_load_image st_fresh ora_fail_dp 1 true true).2 :=
  fun hinv => absurd (hinv 7) (by decide)

/-- C9: whatever status the Security/Security2 authentication step
returns, a load whose remaining steps succeed still produces a handle,
registers the record, and propagates the security status: at the
boot-services surface the handle is written through the caller's
out-pointer while the security status is returned as the call status. -/
theorem security_failure_does_not_abort_load (st : GlobalData)
    (ora : LoadOracles) (parent : Handle) (fp : Bool) (pe : LoadedPe)
    (ptr0 : Ptr) (source_size : Nat)
    (hsz : source_size ≠ 0)
    (hv : valid_handle st parent = true)
    (hpar : lookup_rec parent st.loaded_image_installs = some ptr0)
    (hfpc : (if fp then Except.ok () else ora.file_path_copy) = Except.ok ())
    (hpe : ora.pe_load = .ok pe)
    (hdpc : (if fp then Except.ok () else ora.device_path_copy) = Except.ok ())
    (hrt : (if pe.image_type = EFI_IMAGE_SUBSYSTEM_EFI_RUNTIME_DRIVER then
      ora.runtime_add else Except.ok ()) = Except.ok ())
    (hidp : ora.install_device_path = Except.ok ())
    (hhii : (if pe.has_resource_section then ora.install_hii
      else Except.ok ()) = Except.ok ()) :
    (load_image st ora parent fp false source_size false).1 = ora.security ∧
    (load_image st ora parent fp false source_size false).2.1 =
      some ora.new_handle ∧
    lookup_rec ora.new_handle
      (load_image st ora parent fp false source_size false).2.2.image_records =
      some
        { started := false, exit_data := none, image_type := pe.image_type,
          image_info_ptr := ora.image_info_ptr, unload := none } := by
  have hrun := core_load_image_run st ora parent fp true false pe ptr0
    (Or.inl rfl) hv hpar rfl hfpc hpe hdpc hrt hidp hhii
  unfold load_image
  rw [if_neg (by simp)]
  rw [if_neg (by simp [hsz])]
  simp only [Bool.not_false, hrun]
  simp [lookup_insert]

/-- The all-succeeding oracles with a failing authentication step. -/
def ora_secfail : LoadOracles :=
  { source := .ok false, security := .securityViolation,
    file_path_copy := .ok (),
    pe_load := .ok { image_type := 11, has_resource_section := false },
    new_handle := 7, device_path_copy := .ok (), runtime_add := .ok (),
    install_device_path := .ok (), install_hii := .ok (),
    image_info_ptr := 99 }

/-- Witness for the security-propagation theorem: authentication fails
with SECURITY_VIOLATION, yet the image is loaded on handle 7 and the
violation is returned as the call status. -/
theorem security_failure_does_not_abort_load_witness :
    (load_image st_fresh ora_secfail 1 true false 16 false).1 =
      Status.securityViolation ∧
    (load_image st_fresh ora_secfail 1 true false 16 false).2.1 = some 7 ∧
    lookup_rec 7
      (load_image st_fresh ora_secfail 1 true false 16 false).2.2.image_records =
      some
        { started := false, exit_data := none, image_type := 11,
          image_info_ptr := 99, unload := none } :=
  security_failure_does_not_abort_load st_fresh ora_secfail 1 true
    { image_type := 11, has_resource_section := false } 9 16 (by decide) rfl rfl
    rfl rfl rfl rfl rfl rfl
